import Mathlib

/-!
Shallow embedding of the weather-classification and theming core of the
Worldwide-weather client (src/App.js), together with theorems checking the
specification's claims about it.

JavaScript numbers are modelled as `ℚ` (or `ℝ` where the code calls the
transcendental `Math.log`), integer condition codes as `Int`, possibly
absent JavaScript fields as `Option`, and a JavaScript `TypeError` raised
by a property access on `undefined` as an `Except` error.
-/

/-- The enumerated weather-type tags produced by the classifier
(`getWeatherType` in src/App.js returns one of these strings). -/
inductive WeatherType where
  | thunderstorm
  | rain
  | snow
  | cloudy
  | sunny
  | night
  | default
deriving DecidableEq, Repr

/-- A JavaScript runtime error: accessing a property of `undefined`, or
calling a method on `undefined`. -/
inductive JsError where
  | typeError
deriving DecidableEq, Repr

/-- One entry of the `weather` array of an OpenWeatherMap payload, as read
by `getWeatherType`: the fields `icon` and `id`.  Either field may be
absent (`undefined`) in a malformed payload. -/
structure JsWeatherEntry where
  icon : Option String
  id : Option Int
deriving DecidableEq, Repr

/-- The part of the provider payload inspected by `getWeatherType`: the
`weather` array, which may itself be absent in a malformed payload. -/
structure JsWeatherData where
  weather : Option (List JsWeatherEntry)
deriving DecidableEq, Repr

/-- JavaScript `x >= n` where `x` may be `undefined`: comparison with
`undefined` is false. -/
def jsGE (x : Option Int) (n : Int) : Bool :=
  match x with
  | some v => n ≤ v
  | none => false

/-- JavaScript `x < n` where `x` may be `undefined`. -/
def jsLT (x : Option Int) (n : Int) : Bool :=
  match x with
  | some v => v < n
  | none => false

/-- JavaScript `x <= n` where `x` may be `undefined`. -/
def jsLE (x : Option Int) (n : Int) : Bool :=
  match x with
  | some v => v ≤ n
  | none => false

/-- JavaScript `x === n` where `x` may be `undefined`. -/
def jsEQ (x : Option Int) (n : Int) : Bool :=
  match x with
  | some v => v = n
  | none => false

/-- `getWeatherType` from src/App.js lines 117-143.  A falsy (`null` /
`undefined`) argument returns the string `'default'` at once.  Otherwise
the code reads `weatherData.weather[0].icon` and `.id`; if the `weather`
array is absent, the array is empty, or the entry's `icon` field is
absent, the corresponding property access or the call
`iconCode.includes('n')` raises a TypeError.  With the fields in hand it
walks the if-chain over the condition code. -/
def getWeatherType (weatherData : Option JsWeatherData) : Except JsError WeatherType :=
  match weatherData with
  | none => .ok .default
  | some wd =>
    match wd.weather with
    | none => .error .typeError
    | some arr =>
      match arr.head? with
      | none => .error .typeError
      | some entry =>
        match entry.icon with
        | none => .error .typeError
        | some iconCode =>
          let weatherId := entry.id
          let isNight := iconCode.contains 'n'
          if jsGE weatherId 200 && jsLT weatherId 300 then .ok .thunderstorm
          else if jsGE weatherId 300 && jsLT weatherId 600 then .ok .rain
          else if jsGE weatherId 600 && jsLT weatherId 700 then .ok .snow
          else if jsGE weatherId 801 && jsLE weatherId 804 then
            .ok (if isNight then .night else .cloudy)
          else if jsEQ weatherId 800 then .ok (if isNight then .night else .sunny)
          else if jsGE weatherId 700 && jsLT weatherId 800 then .ok .cloudy
          else .ok (if isNight then .night else .default)

/-- A well-formed snapshot whose `weather[0]` entry carries the given icon
string and integer condition code. -/
def mkSnapshot (icon : String) (code : Int) : JsWeatherData :=
  { weather := some [{ icon := some icon, id := some code }] }

/-- The seven classification rules exactly as the specification words them
(first match wins, ranges half-open on the upper bound), parameterised by
the condition code and by whether the icon indicates nighttime. -/
def classifyRulesSpec (code : Int) (night : Bool) : WeatherType :=
  if 200 ≤ code ∧ code < 300 then .thunderstorm
  else if 300 ≤ code ∧ code < 600 then .rain
  else if 600 ≤ code ∧ code < 700 then .snow
  else if 801 ≤ code ∧ code ≤ 804 then (if night then .night else .cloudy)
  else if code = 800 then (if night then .night else .sunny)
  else if 700 ≤ code ∧ code < 800 then .cloudy
  else if night then .night else .default

/-- On any well-formed snapshot the code's classifier agrees with the
specification's seven-rule table, where nighttime is signalled by the
letter `n` in the icon code. -/
theorem getWeatherType_eq_rulesSpec (icon : String) (code : Int) :
    getWeatherType (some (mkSnapshot icon code)) =
      .ok (classifyRulesSpec code (icon.contains 'n')) := by
  simp only [getWeatherType, mkSnapshot, classifyRulesSpec, List.head?,
    jsGE, jsLT, jsLE, jsEQ, Bool.and_eq_true, decide_eq_true_eq]
  split_ifs <;> simp_all

/-- C1: For every snapshot with an integer condition code and a string icon
code, `getWeatherType` returns the tag given by the seven precedence rules
evaluated in order with first match winning and ranges half-open on the
upper bound: [200,300) thunderstorm; [300,600) rain; [600,700) snow;
801..804 night if nighttime else cloudy; 800 night if nighttime else sunny;
[700,800) cloudy regardless of the icon; anything else night if nighttime
else default. -/
theorem C1_classifier_follows_seven_rules (code : Int) (icon : String) :
    getWeatherType (some (mkSnapshot icon code)) =
      .ok (classifyRulesSpec code (icon.contains 'n')) :=
  getWeatherType_eq_rulesSpec icon code

/-- The snapshot `\x7b\x7d`: non-null but lacking the `weather` field
(hence lacking both the condition-code and icon fields). -/
def emptySnapshot : JsWeatherData := { weather := none }

/-- C2 counterexample: a non-null snapshot lacking the condition-code and
icon fields does not yield `default` — the property access
`weatherData.weather[0]` raises a TypeError, refuting the claim that every
malformed snapshot returns `default` without inspecting fields. -/
theorem C2_counterexample :
    getWeatherType (some emptySnapshot) ≠ Except.ok WeatherType.default := by
  simp [getWeatherType, emptySnapshot]

/-- C2 (amended): `getWeatherType` never raises for any integer condition
code on a well-formed snapshot and always terminates in one of the defined
tags; a `null`/`undefined` snapshot yields `default` without inspecting
fields; but a non-null snapshot lacking the `weather`-array/icon fields
raises a TypeError rather than returning `default`. -/
theorem C2_classifier_totality_amended :
    getWeatherType none = .ok .default
    ∧ (∀ (code : Int) (icon : String),
        ∃ t : WeatherType, getWeatherType (some (mkSnapshot icon code)) = .ok t)
    ∧ getWeatherType (some emptySnapshot) = .error .typeError := by
  refine ⟨rfl, ?_, rfl⟩
  intro code icon
  exact ⟨_, getWeatherType_eq_rulesSpec icon code⟩

/-- A Theme record: the color triple of `WEATHER_THEMES` in src/App.js
lines 50-86. -/
structure Theme where
  background : String
  cardBg : String
  accent : String
deriving DecidableEq, Repr

/-- The `WEATHER_THEMES` lookup table of src/App.js lines 50-86, keyed by
the weather-type tag. -/
def WEATHER_THEMES : WeatherType → Theme
  | .thunderstorm => { background := "#0a0814", cardBg := "rgba(255, 255, 255, 0.08)", accent := "#9D7BD8" }
  | .rain => { background := "#0f0f1a", cardBg := "rgba(255, 255, 255, 0.08)", accent := "#6B8DD6" }
  | .snow => { background := "#3a4a5a", cardBg := "rgba(255, 255, 255, 0.1)", accent := "#A8D5E5" }
  | .cloudy => { background := "#2d3a4a", cardBg := "rgba(255, 255, 255, 0.08)", accent := "#8EAEC4" }
  | .sunny => { background := "#4A90A4", cardBg := "rgba(255, 255, 255, 0.15)", accent := "#FFD93D" }
  | .night => { background := "#0a0a1a", cardBg := "rgba(255, 255, 255, 0.06)", accent := "#C9B8FF" }
  | .default => { background := "#1a2a3a", cardBg := "rgba(255, 255, 255, 0.08)", accent := "#64B5F6" }

/-- Theme resolution, src/App.js line 1304:
`WEATHER_THEMES[weatherType] || WEATHER_THEMES.default`.  Over the
enumerated tags the lookup always hits, so the fallback never fires. -/
def resolveTheme (t : WeatherType) : Theme := WEATHER_THEMES t

/-- One 5-day-forecast entry kept by the controller (an item of
`forecastData.list` whose `dt_txt` contains noon). -/
structure ForecastEntry where
  dt_txt : String
deriving DecidableEq, Repr

/-- The One Call payload held in `oneCallData` (UV, hourly, minutely,
alerts); only its presence matters to the claims, represented here by its
UV-index field. -/
structure OneCallData where
  uvi : Option ℚ
deriving DecidableEq

/-- The controller's React state, src/App.js lines 1293-1301. -/
structure AppState where
  city : String
  weather : Option JsWeatherData
  forecast : List ForecastEntry
  oneCallData : Option OneCallData
  loading : Bool
  error : Option String
  weatherType : WeatherType
  hasLoadedWeather : Bool

/-- The initial controller state given by the `useState` initialisers,
src/App.js lines 1293-1301. -/
def initialAppState : AppState :=
  { city := "", weather := none, forecast := [], oneCallData := none,
    loading := false, error := none, weatherType := .default,
    hasLoadedWeather := false }

/-- The state transition a failing `fetchWeatherByCity` performs (its
`catch` plus `finally`, src/App.js lines 1386-1393): record the error and
clear weather, forecast and One Call data, then stop loading. -/
def fetchWeatherByCityFail (msg : String) (s : AppState) : AppState :=
  { s with
    error := some msg
    weather := none
    forecast := []
    oneCallData := none
    loading := false }

/-- The state transition a failing `fetchWeatherByCoords` performs (its
`catch` plus `finally`, src/App.js lines 1424-1429): record the error and
clear the One Call data, then stop loading — `weather` and `forecast` are
left untouched. -/
def fetchWeatherByCoordsFail (s : AppState) : AppState :=
  { s with
    error := some "Failed to fetch weather data"
    oneCallData := none
    loading := false }

/-- The effect of src/App.js lines 1472-1476: when `weather` is non-null,
recompute `weatherType` by running the classifier on it (propagating a
TypeError the classifier may raise); when `weather` is null, leave the
state untouched. -/
def weatherTypeEffect (s : AppState) : Except JsError AppState :=
  match s.weather with
  | none => .ok s
  | some wd => (getWeatherType (some wd)).map fun t => { s with weatherType := t }

/-- A controller state holding data for one location: a loaded snapshot,
a non-empty forecast stale relative to a failing request, and extended
conditions. -/
def staleState : AppState :=
  { city := "Paris", weather := some (mkSnapshot "01d" 800),
    forecast := [{ dt_txt := "2026-10-12 12:00:00" }],
    oneCallData := some { uvi := some 3 }, loading := true, error := none,
    weatherType := .sunny, hasLoadedWeather := true }

/-- C3 counterexample: a failing by-coordinates fetch records its error but
leaves the stale forecast list in place, refuting the claim that both fetch
paths clear the stale forecast data atomically with the error. -/
theorem C3_counterexample :
    (fetchWeatherByCoordsFail staleState).error = some "Failed to fetch weather data"
    ∧ (fetchWeatherByCoordsFail staleState).forecast ≠ [] := by
  refine ⟨rfl, ?_⟩
  simp [fetchWeatherByCoordsFail, staleState]

/-- C3 (amended): a failing by-city fetch clears the weather snapshot, the
forecast and the extended-conditions data atomically with recording the
error; a failing by-coordinates fetch records its error and clears only the
extended-conditions data, leaving the forecast and snapshot unchanged. -/
theorem C3_failure_clearing_amended (s : AppState) (msg : String) :
    ((fetchWeatherByCityFail msg s).error = some msg
      ∧ (fetchWeatherByCityFail msg s).weather = none
      ∧ (fetchWeatherByCityFail msg s).forecast = []
      ∧ (fetchWeatherByCityFail msg s).oneCallData = none)
    ∧ ((fetchWeatherByCoordsFail s).error = some "Failed to fetch weather data"
      ∧ (fetchWeatherByCoordsFail s).oneCallData = none
      ∧ (fetchWeatherByCoordsFail s).forecast = s.forecast
      ∧ (fetchWeatherByCoordsFail s).weather = s.weather) :=
  ⟨⟨rfl, rfl, rfl, rfl⟩, ⟨rfl, rfl, rfl, rfl⟩⟩

/-- C4: a snapshot with condition code 501 and icon "10d" classifies as
`rain` and resolves to exactly the `rain` entry of the theme table; after a
failed city lookup the weather-type effect runs without error and leaves
the weather type at its last-known value, which is `default` in the initial
state where no snapshot was ever loaded. -/
theorem C4_rain_scenario_and_failed_lookup (s : AppState) (msg : String) :
    getWeatherType (some (mkSnapshot "10d" 501)) = .ok .rain
    ∧ resolveTheme .rain =
        { background := "#0f0f1a", cardBg := "rgba(255, 255, 255, 0.08)", accent := "#6B8DD6" }
    ∧ weatherTypeEffect (fetchWeatherByCityFail msg s) = .ok (fetchWeatherByCityFail msg s)
    ∧ (fetchWeatherByCityFail msg s).weatherType = s.weatherType
    ∧ initialAppState.weatherType = .default :=
  ⟨rfl, rfl, rfl, rfl, rfl⟩

/-- JavaScript `Math.round` on a rational: round half away from zero
upward, i.e. `⌊q + 1/2⌋`. -/
def jsRound (q : ℚ) : Int := ⌊q + 1/2⌋

/-- The compass-point array of `getWindDirection`, src/App.js line 206. -/
def directions : List String := ["N", "NE", "E", "SE", "S", "SW", "W", "NW"]

/-- `getWindDirection` from src/App.js lines 204-209.  An `undefined`
argument returns the empty string; otherwise the code indexes the compass
array at `Math.round(degrees / 45) % 8`, where the JavaScript `%` is the
truncating remainder (`Int.tmod`) and an out-of-range index yields
`undefined` (`none`). -/
def getWindDirection (degrees : Option ℚ) : Option String :=
  match degrees with
  | none => some ""
  | some d =>
    let index := (jsRound (d / 45)).tmod 8
    if index < 0 then none else directions.get? index.toNat

/-- On `0 ≤ d` the rounded scaled index is non-negative. -/
theorem jsRound_div45_nonneg {d : ℚ} (h0 : 0 ≤ d) : 0 ≤ jsRound (d / 45) := by
  have : (0 : ℚ) ≤ d / 45 + 1 / 2 := by positivity
  exact Int.le_floor.mpr (by exact_mod_cast this)

/-- C5: for every defined degrees value in [0,360], `getWindDirection`
returns the compass point at index `round(degrees/45) mod 8` of the list
[N, NE, E, SE, S, SW, W, NW], that index is below 8, and for an undefined
degrees value it returns the empty string without raising an error. -/
theorem C5_windDirection_formula (d : ℚ) (h0 : 0 ≤ d) (h1 : d ≤ 360) :
    getWindDirection (some d) =
      (["N", "NE", "E", "SE", "S", "SW", "W", "NW"] : List String).get?
        ((round (d / 45) % 8).toNat)
    ∧ (round (d / 45) % 8).toNat < 8
    ∧ getWindDirection none = some "" := by
  have hr : round (d / 45) = jsRound (d / 45) := round_eq (d / 45)
  have h8 : (0 : Int) < 8 := by norm_num
  have hnn : 0 ≤ jsRound (d / 45) := jsRound_div45_nonneg h0
  have htm : (jsRound (d / 45)).tmod 8 = jsRound (d / 45) % 8 :=
    Int.tmod_eq_emod hnn h8.le
  have hlt : jsRound (d / 45) % 8 < 8 := Int.emod_lt_of_pos _ h8
  have hge : 0 ≤ jsRound (d / 45) % 8 := Int.emod_nonneg _ (by norm_num)
  refine ⟨?_, ?_, rfl⟩
  · simp only [getWindDirection, htm, hr, if_neg (not_lt.mpr hge)]
    rfl
  · rw [hr]; omega

/-- C5 witness: the theorem applied at 90 degrees, which points east. -/
theorem C5_windDirection_formula_witness :
    (0 : ℚ) ≤ 90 ∧ (90 : ℚ) ≤ 360 ∧
      getWindDirection (some 90) =
        (["N", "NE", "E", "SE", "S", "SW", "W", "NW"] : List String).get?
          ((round ((90 : ℚ) / 45) % 8).toNat) :=
  ⟨by norm_num, by norm_num,
    (C5_windDirection_formula 90 (by norm_num) (by norm_num)).1⟩

/-- C6 counterexample: 44 degrees does not map to `N` — the code computes
`Math.round(44/45) = 1`, selecting `NE`. -/
theorem C6_counterexample : getWindDirection (some 44) ≠ some "N" := by
  norm_num [getWindDirection, jsRound, directions] <;> decide

/-- C6 (amended): `getWindDirection` maps 0° to `N`, 44° to `NE` (44° is
nearest the 45° point), 46° to `NE`, and 360° to `N` (the index wrapping
via modulo 8). -/
theorem C6_windDirection_examples :
    getWindDirection (some 0) = some "N"
    ∧ getWindDirection (some 44) = some "NE"
    ∧ getWindDirection (some 46) = some "NE"
    ∧ getWindDirection (some 360) = some "N" := by
  refine ⟨?_, ?_, ?_, ?_⟩ <;> norm_num [getWindDirection, jsRound, directions] <;> decide

/-- C10: for every degrees value in [0,360] the index computed inside
`getWindDirection` lies within 0..7, so the compass-array lookup is in
bounds and the function returns one of the eight compass strings. -/
theorem C10_windDirection_index_in_bounds (d : ℚ) (h0 : 0 ≤ d) (h1 : d ≤ 360) :
    0 ≤ (jsRound (d / 45)).tmod 8
    ∧ (jsRound (d / 45)).tmod 8 < 8
    ∧ ∃ s ∈ directions, getWindDirection (some d) = some s := by
  have h8 : (0 : Int) < 8 := by norm_num
  have hnn : 0 ≤ jsRound (d / 45) := jsRound_div45_nonneg h0
  have htm : (jsRound (d / 45)).tmod 8 = jsRound (d / 45) % 8 :=
    Int.tmod_eq_emod hnn h8.le
  have hlt : jsRound (d / 45) % 8 < 8 := Int.emod_lt_of_pos _ h8
  have hge : 0 ≤ jsRound (d / 45) % 8 := Int.emod_nonneg _ (by norm_num)
  refine ⟨by omega, by omega, ?_⟩
  have hltn : (jsRound (d / 45) % 8).toNat < directions.length := by
    simp only [directions, List.length]
    omega
  refine ⟨directions.get ⟨(jsRound (d / 45) % 8).toNat, hltn⟩, List.get_mem _ _ hltn, ?_⟩
  simp only [getWindDirection, htm, if_neg (not_lt.mpr hge)]
  exact List.get?_eq_get hltn

/-- C10 witness: the theorem applied at 200 degrees. -/
theorem C10_windDirection_index_in_bounds_witness :
    (0 : ℚ) ≤ 200 ∧ (200 : ℚ) ≤ 360 ∧
      ∃ s ∈ directions, getWindDirection (some 200) = some s :=
  ⟨by norm_num, by norm_num,
    (C10_windDirection_index_in_bounds 200 (by norm_num) (by norm_num)).2.2⟩

/-- A UV bucket: the label/color pair returned by `getUVLevel`. -/
structure UVLevel where
  label : String
  color : String
deriving DecidableEq, Repr

/-- `getUVLevel` from src/App.js lines 217-223: the if-chain over the UV
index with thresholds 2, 5, 7, 10. -/
def getUVLevel (uvi : ℚ) : UVLevel :=
  if uvi ≤ 2 then { label := "Low", color := "#4CAF50" }
  else if uvi ≤ 5 then { label := "Moderate", color := "#FFEB3B" }
  else if uvi ≤ 7 then { label := "High", color := "#FF9800" }
  else if uvi ≤ 10 then { label := "Very High", color := "#F44336" }
  else { label := "Extreme", color := "#9C27B0" }

/-- C7: for every numeric UV index, `getUVLevel` buckets with thresholds
inclusive on the upper bound: ≤2 Low, (2,5] Moderate, (5,7] High,
(7,10] Very High, >10 Extreme; in particular 2 is Low, 2.01 is Moderate
and 11 is Extreme. -/
theorem C7_uv_buckets (u : ℚ) :
    ((getUVLevel u).label = "Low" ↔ u ≤ 2)
    ∧ ((getUVLevel u).label = "Moderate" ↔ 2 < u ∧ u ≤ 5)
    ∧ ((getUVLevel u).label = "High" ↔ 5 < u ∧ u ≤ 7)
    ∧ ((getUVLevel u).label = "Very High" ↔ 7 < u ∧ u ≤ 10)
    ∧ ((getUVLevel u).label = "Extreme" ↔ 10 < u)
    ∧ (getUVLevel 2).label = "Low"
    ∧ (getUVLevel (2.01 : ℚ)).label = "Moderate"
    ∧ (getUVLevel 11).label = "Extreme" := by
  refine ⟨?_, ?_, ?_, ?_, ?_, ?_, ?_, ?_⟩ <;>
    simp only [getUVLevel] <;> split_ifs <;> simp_all <;> intros <;> linarith

/-- `convertTemp` from src/App.js lines 1313-1316: in Celsius mode round
the stored Celsius value; in Fahrenheit mode round `C × 9/5 + 32`. -/
def convertTemp (isCelsius : Bool) (tempCelsius : ℚ) : Int :=
  if isCelsius then jsRound tempCelsius
  else jsRound (tempCelsius * 9 / 5 + 32)

/-- C8: in Fahrenheit mode the display conversion returns
`round(C × 9/5 + 32)`; in particular it maps 0 to exactly 32 and 100 to
exactly 212. -/
theorem C8_fahrenheit_conversion (C : ℚ) :
    convertTemp false C = round (C * 9 / 5 + 32)
    ∧ convertTemp false 0 = 32
    ∧ convertTemp false 100 = 212 := by
  refine ⟨?_, ?_, ?_⟩
  · rw [round_eq]; rfl
  · norm_num [convertTemp, jsRound]
  · norm_num [convertTemp, jsRound]

/-- `calculateDewPoint` from src/App.js lines 246-252: the Magnus-formula
approximation with constants a = 17.27 and b = 237.7, rounded to the
nearest integer (`Math.round`, which is `round` on ℝ). -/
noncomputable def calculateDewPoint (tempCelsius humidity : ℝ) : Int :=
  let a : ℝ := 17.27
  let b : ℝ := 237.7
  let alpha := a * tempCelsius / (b + tempCelsius) + Real.log (humidity / 100)
  round (b * alpha / (a - alpha))

/-- Upper bound on `log (5/3)` obtained by splitting into three factors
close to 1 and applying `log x ≤ x - 1` to each. -/
theorem log53_ub : Real.log (5/3 : ℝ) ≤ 41/72 := by
  have h53 : (5/3 : ℝ) = (10/9) * ((9/8) * (4/3)) := by norm_num
  have u1 := Real.log_le_sub_one_of_pos (show (0:ℝ) < 10/9 by norm_num)
  have u2 := Real.log_le_sub_one_of_pos (show (0:ℝ) < 9/8 by norm_num)
  have u3 := Real.log_le_sub_one_of_pos (show (0:ℝ) < 4/3 by norm_num)
  rw [h53, Real.log_mul (by norm_num) (by norm_num), Real.log_mul (by norm_num) (by norm_num)]
  linarith

/-- Lower bound on `log (5/3)` obtained by splitting into three factors
close to 1 and applying `1 - x⁻¹ ≤ log x` to each. -/
theorem log53_lb : (83/180 : ℝ) ≤ Real.log (5/3) := by
  have h53 : (5/3 : ℝ) = (10/9) * ((9/8) * (4/3)) := by norm_num
  have l1 := Real.one_sub_inv_le_log_of_pos (show (0:ℝ) < 10/9 by norm_num)
  have l2 := Real.one_sub_inv_le_log_of_pos (show (0:ℝ) < 9/8 by norm_num)
  have l3 := Real.one_sub_inv_le_log_of_pos (show (0:ℝ) < 4/3 by norm_num)
  rw [h53, Real.log_mul (by norm_num) (by norm_num), Real.log_mul (by norm_num) (by norm_num)]
  norm_num at l1 l2 l3
  linarith

/-- The dew point computed at T = 25 °C and 60 % humidity lands within one
degree of 16 °C. -/
theorem dewPoint_25_60_near_16 : (calculateDewPoint 25 60 - 16).natAbs ≤ 1 := by
  have hlog : Real.log ((60:ℝ)/100) = - Real.log (5/3) := by
    rw [show (60:ℝ)/100 = (5/3 : ℝ)⁻¹ by norm_num, Real.log_inv]
  simp only [calculateDewPoint]
  set alpha : ℝ := 17.27 * 25 / (237.7 + 25) + Real.log (60 / 100) with halpha
  have ha_lo : (1.07 : ℝ) ≤ alpha := by
    rw [halpha, hlog]
    have := log53_ub
    norm_num
    linarith
  have ha_hi : alpha ≤ (1.1824 : ℝ) := by
    rw [halpha, hlog]
    have := log53_lb
    norm_num
    linarith
  have hD : (0:ℝ) < 17.27 - alpha := by linarith
  have h1 : (15.5 : ℝ) ≤ 237.7 * alpha / (17.27 - alpha) := by
    rw [le_div_iff₀ hD]
    nlinarith
  have h2 : 237.7 * alpha / (17.27 - alpha) < (17.5 : ℝ) := by
    rw [div_lt_iff₀ hD]
    nlinarith
  have h16 : (16 : ℤ) ≤ round (237.7 * alpha / (17.27 - alpha)) := by
    rw [round_eq]
    refine Int.le_floor.mpr ?_
    push_cast
    linarith
  have h17 : round (237.7 * alpha / (17.27 - alpha)) ≤ 17 := by
    rw [round_eq]
    have : ⌊237.7 * alpha / (17.27 - alpha) + 1/2⌋ < 18 := by
      refine Int.floor_lt.mpr ?_
      push_cast
      linarith
    omega
  omega

/-- C9: for every temperature T and humidity h > 0, `calculateDewPoint`
equals the Magnus approximation `α = 17.27·T/(237.7+T) + ln(h/100)`,
`dewPoint = 237.7·α/(17.27−α)`, rounded to the nearest integer; and at
T = 25, h = 60 the result is within ±1 °C of 16 °C. -/
theorem C9_dew_point_magnus (T h : ℝ) (hh : 0 < h) :
    calculateDewPoint T h =
      round ((237.7 : ℝ) * (17.27 * T / (237.7 + T) + Real.log (h / 100)) /
        (17.27 - (17.27 * T / (237.7 + T) + Real.log (h / 100))))
    ∧ (calculateDewPoint 25 60 - 16).natAbs ≤ 1 :=
  ⟨rfl, dewPoint_25_60_near_16⟩

/-- C9 witness: the theorem applied at T = 25 °C and h = 60 %. -/
theorem C9_dew_point_magnus_witness :
    (0 : ℝ) < 60 ∧ (calculateDewPoint 25 60 - 16).natAbs ≤ 1 :=
  ⟨by norm_num, (C9_dew_point_magnus 25 60 (by norm_num)).2⟩



